import Mathlib

/-!
Verification development for the UMD receivables-audit analysis code
(`aging_analysis.py`, `credit_analysis.py`, `three_way_match.py`).

The Python code operates on pandas DataFrames.  The embedding below models a
DataFrame as a list of column names together with rows of optional rational
cells (`none` models NaN/null).  Pure numeric values (amounts, identifiers)
are modelled as rationals, dates as integer day counts.  pandas join
semantics are modelled as list computations: a left join emits, for every
left row, one output row per matching right row (or a single null-extended
row when no right row matches); null join keys match null join keys, as in
pandas.  All modelled functions are total Lean functions: a Python code path
that returns a value (rather than raising) is modelled by returning the
corresponding value, and a path that raises is modelled with `Except` or
`Option` as appropriate.
-/

namespace UMD

/-- Cell of a data table: `none` models a pandas NaN/null entry. -/
abbrev Cell := Option ℚ

/-- Rectangular data table: column names plus rows of cells, each row aligned
positionally with `cols`. -/
structure DF where
  cols : List String
  rows : List (List Cell)
deriving DecidableEq, Repr

/-- Look up the cell of `row` in the column named `c` (first matching column,
`none` when the column is absent). -/
def getCell (cols : List String) (row : List Cell) (c : String) : Cell :=
  match cols.findIdx? (fun x => x = c) with
  | some i => row.getD i none
  | none => none

/-- Column sum in the pandas sense: null cells are skipped (contribute 0). -/
def colSum (df : DF) (c : String) : ℚ :=
  (df.rows.map (fun r => (getCell df.cols r c).getD 0)).sum

/-- Number of non-null entries of column `c` (pandas `notna().sum()`). -/
def countNotna (df : DF) (c : String) : ℕ :=
  df.rows.countP (fun r => (getCell df.cols r c).isSome)

/-! ## Robust join engine (`CreditAnalyzer._validate_and_merge`)

The repository always invokes `_validate_and_merge` with `how="left"` and
with `right_on` left to its default (`right_on = left_on`); the embedding
fixes those defaults.  With `left_on == right_on`, `pd.merge` coalesces the
key into a single output column (the same behaviour as `on=`), so the merged
column names are: left columns (suffixed `_left` when a non-key column of
the same name exists on the right), followed by the right non-key columns
(suffixed `_right` when a column of the same name exists on the left). -/

/-- Diagnostics dictionary produced by `_validate_and_merge`.  The
`left_matched` / `right_matched` keys are only present in the successful
branch, hence `Option`. -/
structure MergeDiagnostics where
  success : Bool
  merge_rate : ℚ
  left_matched : Option ℕ
  right_matched : Option ℕ
  left_unmatched : ℤ
  right_unmatched : ℤ
  error : Option String
deriving DecidableEq, Repr

/-- Output column names of the (coalesced-key) left join. -/
def mergedCols (left right : DF) (key : String) : List String :=
  left.cols.map (fun c => if c ≠ key ∧ c ∈ right.cols then c ++ "_left" else c)
    ++ (right.cols.filter (· ≠ key)).map
        (fun c => if c ∈ left.cols then c ++ "_right" else c)

/-- Cells of a right-table row restricted to the non-key columns. -/
def rightNonKeyCells (right : DF) (key : String) (r : List Cell) : List Cell :=
  ((right.cols.zip r).filter (fun p => p.1 ≠ key)).map (·.2)

/-- Rows of the left join of `left` with `right` on the shared key column
`key`: every left row is emitted once per matching right row, or once with
null right-side cells when nothing matches.  Null keys match null keys, as
pandas merge keys do. -/
def leftJoinRows (left right : DF) (key : String) : List (List Cell) :=
  left.rows.flatMap (fun lr =>
    let ms := right.rows.filter
      (fun rr => getCell right.cols rr key = getCell left.cols lr key)
    if ms.isEmpty then
      [lr ++ List.replicate ((right.cols.filter (· ≠ key)).length) none]
    else
      ms.map (fun rr => lr ++ rightNonKeyCells right key rr))

/-- Left join of two tables on a shared key column (`pd.merge(..., how="left")`
with `left_on = right_on = key`). -/
def leftJoin (left right : DF) (key : String) : DF :=
  ⟨mergedCols left right key, leftJoinRows left right key⟩

/-- Null-filled right-hand columns appended to the left table, as produced by
the short-circuit branches of `_validate_and_merge`
(`left_df.assign(**{col+suffix: np.nan ...})`).  pandas `assign` replaces a
column in place when the name already exists and appends it otherwise. -/
def assignNullCol (df : DF) (c : String) : DF :=
  match df.cols.findIdx? (fun x => x = c) with
  | some i => ⟨df.cols, df.rows.map (fun r => r.set i none)⟩
  | none => ⟨df.cols ++ [c], df.rows.map (fun r => r ++ [none])⟩

/-- Names of the null columns appended by the short-circuit branches: the
non-key columns of the right table with the `_right` suffix. -/
def nullColNames (right : DF) (key : String) : List String :=
  (right.cols.filter (· ≠ key)).map (· ++ "_right")

/-- Left table with the non-key columns of the right table appended as null-filled
columns. -/
def assignNullCols (left right : DF) (key : String) : DF :=
  (nullColNames right key).foldl assignNullCol left

/-- Shallow embedding of `CreditAnalyzer._validate_and_merge` (with the
fixed defaults of the module, `how="left"`, `right_on = left_on`,
suffixes `("_left", "_right")`).  Every data-quality precondition failure
returns instead of raising, exactly as in the source: empty inputs are
checked first, then the key column on the left, then on the right.  In the
merge branch, `left_matched` is the non-null count of the `key_left` column
when such a column exists in the merged output and the merged row count
otherwise; `merge_rate = left_matched / left_count`. -/
def validateAndMerge (left right : DF) (key : String) (merge_threshold : ℚ) :
    DF × MergeDiagnostics :=
  if left.rows.length = 0 ∨ right.rows.length = 0 then
    (assignNullCols left right key,
      { success := false, merge_rate := 0, left_matched := none,
        right_matched := none, left_unmatched := left.rows.length,
        right_unmatched := right.rows.length,
        error := some "Empty DataFrame" })
  else if key ∉ left.cols then
    (assignNullCols left right key,
      { success := false, merge_rate := 0, left_matched := none,
        right_matched := none, left_unmatched := left.rows.length,
        right_unmatched := right.rows.length,
        error := some ("Missing left column: " ++ key) })
  else if key ∉ right.cols then
    (assignNullCols left right key,
      { success := false, merge_rate := 0, left_matched := none,
        right_matched := none, left_unmatched := left.rows.length,
        right_unmatched := right.rows.length,
        error := some ("Missing right column: " ++ key) })
  else
    let merged := leftJoin left right key
    let left_matched : ℕ :=
      if (key ++ "_left") ∈ merged.cols then countNotna merged (key ++ "_left")
      else merged.rows.length
    let right_matched : ℕ :=
      if key ∈ merged.cols then countNotna merged key
      else merged.rows.length
    let merge_rate : ℚ := (left_matched : ℚ) / (left.rows.length : ℚ)
    (merged,
      { success := decide (merge_rate ≥ merge_threshold),
        merge_rate := merge_rate,
        left_matched := some left_matched,
        right_matched := some right_matched,
        left_unmatched := (left.rows.length : ℤ) - (left_matched : ℤ),
        right_unmatched := (right.rows.length : ℤ) - (right_matched : ℤ),
        error := none })

/-! ## Aging engine (`AgingAnalyzer`)

The aging pipeline is embedded over typed records carrying exactly the
columns the Python code projects out of the spreadsheet tables.  The
`print`-only validation helper `_validate_aging_data` and the timing
metadata (`processing_time`, wall-clock time) have no data effect and are
not modelled. -/

/-- Customer-invoice row as used by the aging analysis: `InvoiceID`,
`CustID`, `InvoiceDate` (null when missing) and the derived `IsPaid` flag. -/
structure Invoice where
  invoiceID : ℚ
  custID : ℚ
  invoiceDate : Option ℤ
  isPaid : Bool
deriving DecidableEq, Repr

/-- Sales-order row projected to the three columns the aging merge uses
(`sales_orders[["InvoiceID", "TotalDue", "OrderDate"]]`). -/
structure OrderProj where
  invoiceID : Option ℚ
  totalDue : Option ℚ
  orderDate : Option ℤ
deriving DecidableEq, Repr

/-- Detailed per-invoice aging row (`invoice_details` after bucketing). -/
structure DetailRow where
  invoiceID : ℚ
  custID : ℚ
  totalDue : Option ℚ
  invoiceDate : ℤ
  daysPastDue : ℤ
  bucket : String
deriving DecidableEq, Repr

/-- The four aging bucket labels, in the order of the `pd.cut` call. -/
def bucketLabels : List String := ["0-30", "31-60", "61-90", "90+"]

/-- Aging bucket of a days-past-due value:
`pd.cut(..., bins=[-inf, 30, 60, 90, inf], labels=["0-30","31-60","61-90","90+"])`
with the pandas default of right-closed intervals. -/
def agingBucket (d : ℤ) : String :=
  if d ≤ 30 then "0-30"
  else if d ≤ 60 then "31-60"
  else if d ≤ 90 then "61-90"
  else "90+"

/-- Duplicate elimination keeping the first occurrence
(pandas `drop_duplicates`). -/
def dedupFirst {α : Type} [DecidableEq α] : List α → List α
  | [] => []
  | a :: l => a :: (dedupFirst l).filter (· ≠ a)

/-- Left join of the unpaid invoices with the de-duplicated sales-order
projection on `InvoiceID`: each invoice is paired with the total-due and
order-date of every matching order row, or with nulls when no order row
matches. -/
def invoiceOrderMerge (unpaid : List Invoice) (orders : List OrderProj) :
    List (Invoice × Option ℚ × Option ℤ) :=
  unpaid.flatMap (fun inv =>
    let ms := (dedupFirst orders).filter (fun o => o.invoiceID = some inv.invoiceID)
    if ms.isEmpty then [(inv, none, none)]
    else ms.map (fun o => (inv, o.totalDue, o.orderDate)))

/-- Shallow embedding of `AgingAnalyzer._calculate_invoice_aging`: merge the
unpaid invoices with the sales orders, backfill `InvoiceDate` from
`OrderDate`, drop rows with no resolvable date, compute
`DaysPastDue = as_of_date - InvoiceDate`, keep only the range
`-30 ≤ DaysPastDue ≤ 365`, and assign the aging bucket. -/
def calculateInvoiceAging (unpaid : List Invoice) (orders : List OrderProj)
    (asOfDate : ℤ) : List DetailRow :=
  (((invoiceOrderMerge unpaid orders).filterMap (fun p =>
      match p.1.invoiceDate <|> p.2.2 with
      | none => none
      | some dt => some (p.1, p.2.1, dt)))
    |>.filter (fun q => -30 ≤ asOfDate - q.2.2 ∧ asOfDate - q.2.2 ≤ 365))
    |>.map (fun q =>
      { invoiceID := q.1.invoiceID, custID := q.1.custID, totalDue := q.2.1,
        invoiceDate := q.2.2, daysPastDue := asOfDate - q.2.2,
        bucket := agingBucket (asOfDate - q.2.2) })

/-- Per-customer row of the pivoted aging summary: one column per bucket
plus the appended `Total` column. -/
structure SummaryRow where
  custID : ℚ
  b030 : ℚ
  b3160 : ℚ
  b6190 : ℚ
  b90 : ℚ
  total : ℚ
deriving DecidableEq, Repr

/-- Sum of `TotalDue` (nulls skipped) over the detail rows of customer `c`
that fall in bucket `b` — the `(CustID, AgingBucket)` group sums feeding the
pivot, with absent combinations summing to 0. -/
def bucketSum (det : List DetailRow) (c : ℚ) (b : String) : ℚ :=
  ((det.filter (fun r => r.custID = c ∧ r.bucket = b)).map
    (fun r => r.totalDue.getD 0)).sum

/-- Shallow embedding of `AgingAnalyzer._create_aging_report`: group the
detail rows by `(CustID, AgingBucket)` summing `TotalDue`, pivot to one row
per customer with a column per bucket (missing combinations 0), and append
`Total` as the sum of the bucket columns.  (The `pd.cut` bucket column is
categorical, so every bucket column is materialised; pandas orders the pivot
index by sorted `CustID`, which the claims never depend on — the embedding
keeps first-appearance order.) -/
def createAgingReport (det : List DetailRow) : List SummaryRow :=
  (dedupFirst (det.map (·.custID))).map (fun c =>
    { custID := c,
      b030 := bucketSum det c "0-30",
      b3160 := bucketSum det c "31-60",
      b6190 := bucketSum det c "61-90",
      b90 := bucketSum det c "90+",
      total := bucketSum det c "0-30" + bucketSum det c "31-60"
        + bucketSum det c "61-90" + bucketSum det c "90+" })

/-- Per-customer subtotal of the rows more than 90 days past due
(`invoice_details[DaysPastDue > 90]` grouped by `CustID`, summing
`TotalDue`). -/
def over90Days (det : List DetailRow) : List (ℚ × ℚ) :=
  let sel := det.filter (fun r => 90 < r.daysPastDue)
  (dedupFirst (sel.map (·.custID))).map (fun c =>
    (c, ((sel.filter (fun r => r.custID = c)).map (fun r => r.totalDue.getD 0)).sum))

/-- Lookup of a customer in the per-customer over-90 subtotals
(`over_90_days` is keyed by `CustID`). -/
def over90Lookup (l : List (ℚ × ℚ)) (c : ℚ) : Option ℚ :=
  (l.find? (fun p => p.1 = c)).map (fun p => p.2)

/-- Aging report stored in `self.aging_report` by `perform_aging_analysis`.
The wall-clock `processing_time` metadata entry is not representable in a
pure embedding and is omitted; the remaining metadata fields are kept. -/
structure AgingReport where
  detailed : List DetailRow
  summary : List SummaryRow
  over_90_days : List (ℚ × ℚ)
  as_of_date : ℤ
  total_invoices : ℕ
  total_customers : ℕ
deriving DecidableEq, Repr

/-- Shallow embedding of `AgingAnalyzer.perform_aging_analysis`: `none`
models every path on which no aging report is stored (empty invoice input,
which raises; no unpaid invoices; no surviving detail rows). -/
def performAgingAnalysis (invoices : List Invoice) (orders : List OrderProj)
    (asOfDate : ℤ) : Option AgingReport :=
  if invoices.isEmpty then none
  else if (invoices.filter (fun i => ¬ i.isPaid)).isEmpty then none
  else if (calculateInvoiceAging (invoices.filter (fun i => ¬ i.isPaid))
      orders asOfDate).isEmpty then none
  else some
    { detailed :=
        calculateInvoiceAging (invoices.filter (fun i => ¬ i.isPaid)) orders asOfDate,
      summary := createAgingReport
        (calculateInvoiceAging (invoices.filter (fun i => ¬ i.isPaid)) orders asOfDate),
      over_90_days := over90Days
        (calculateInvoiceAging (invoices.filter (fun i => ¬ i.isPaid)) orders asOfDate),
      as_of_date := asOfDate,
      total_invoices :=
        (calculateInvoiceAging (invoices.filter (fun i => ¬ i.isPaid)) orders asOfDate).length,
      total_customers := (createAgingReport
        (calculateInvoiceAging (invoices.filter (fun i => ¬ i.isPaid)) orders asOfDate)).length }

/-! ## Self-validation (`AgingAnalyzer.validate_analysis_results`) -/

/-- Sum of the `TotalDue` column of the detailed rows (nulls skipped). -/
def sumTotalDue (det : List DetailRow) : ℚ :=
  (det.map (fun r => r.totalDue.getD 0)).sum

/-- Sum of the `Total` column of the summary rows. -/
def sumSummaryTotal (s : List SummaryRow) : ℚ :=
  (s.map (·.total)).sum

/-- Validation outcome.  The completeness and metadata checks of the source
inspect dictionary keys that are always present in the typed report, so only
the consistency check can fail here; `totals_match` is `none` when the
consistency check is skipped (empty detailed or summary table). -/
structure ValidationResults where
  is_valid : Bool
  totals_match : Option Bool
  recommendations : List String
deriving DecidableEq, Repr

/-- Decimal-free rendering of a rational for report strings.  The Python
code formats floats with locale separators; the exact text of these
informational strings is presentation only. -/
def ratStr (q : ℚ) : String := toString q

/-- Shallow embedding of `AgingAnalyzer.validate_analysis_results`.  The
mismatch message elides the apostrophe of the Python text
(doesn + apostrophe + t match). -/
def validateAnalysisResults (report : Option AgingReport) : ValidationResults :=
  match report with
  | none =>
    { is_valid := false, totals_match := none,
      recommendations := ["No aging analysis performed"] }
  | some rpt =>
    let consistency : Bool × Option Bool × List String :=
      if ¬ rpt.detailed.isEmpty ∧ ¬ rpt.summary.isEmpty then
        let s := sumSummaryTotal rpt.summary
        let d := sumTotalDue rpt.detailed
        if |s - d| > 1/100 then
          (false, some false,
            ["Summary total (" ++ ratStr s ++ ") does not match detailed total ("
              ++ ratStr d ++ ")"])
        else (true, some true, [])
      else (true, none, [])
    let maxDays : ℤ := ((rpt.detailed.map (·.daysPastDue)).max?).getD 0
    let negDays : ℕ := rpt.detailed.countP (fun r => r.daysPastDue < 0)
    let over90Recs : List String :=
      if ¬ rpt.over_90_days.isEmpty then
        (if 365 < maxDays then
          ["Some invoices are " ++ toString maxDays
            ++ " days past due - consider reviewing for accuracy"] else [])
        ++ (if 0 < negDays then
          [toString negDays
            ++ " invoices show negative days past due (future dated)"] else [])
      else []
    let valid := consistency.1
    { is_valid := valid, totals_match := consistency.2.1,
      recommendations := consistency.2.2 ++ over90Recs
        ++ [if valid then "All validation checks passed"
            else "Some validation checks failed - review results"] }

/-! ## Client comparison (`AgingAnalyzer.compare_with_client_aging`) -/

/-- Column-name synonym table of `_preprocess_client_data`
(`column_mappings`). -/
def columnMappings : List (String × String) :=
  [("customer_id", "CustID"), ("customerid", "CustID"), ("customer", "CustID"),
   ("cust_id", "CustID"),
   ("total_due", "TotalDue"), ("totaldue", "TotalDue"),
   ("amount_due", "TotalDue"), ("balance", "TotalDue"),
   ("aging_90+", "90+"), ("aging_90", "90+"), ("over_90", "90+"),
   ("past_due_90", "90+"), ("current_90+", "90+"),
   ("0-30_days", "0-30"), ("0-30", "0-30"), ("current", "0-30"),
   ("31-60_days", "31-60"), ("31-60", "31-60"),
   ("61-90_days", "61-90"), ("61-90", "61-90")]

/-- Dictionary lookup with default (`dict.get(key, default)`), keeping the
first matching entry. -/
def lookupD {β : Type} (l : List (String × β)) (k : String) (d : β) : β :=
  match l.find? (fun p => p.1 = k) with
  | some p => p.2
  | none => d

/-- Column-name normalisation of `_preprocess_client_data`: lower-case,
spaces and dashes to underscores
(`df.columns.str.lower().str.replace(" ", "_").str.replace("-", "_")`).
Both replacement patterns are single characters, so the three passes are one
character map. -/
def normalizeCol (c : String) : String :=
  ⟨c.data.map (fun ch => if ch = ' ' ∨ ch = '-' then '_' else ch.toLower)⟩

/-- Standardised name of a client column: normalise, then apply the synonym
table (unmapped names stay normalised). -/
def renameCol (c : String) : String :=
  lookupD columnMappings (normalizeCol c) (normalizeCol c)

/-- Amount columns coerced to numeric with nulls filled by 0. -/
def numericCols : List String := ["TotalDue", "0-30", "31-60", "61-90", "90+"]

/-- Shallow embedding of `AgingAnalyzer._preprocess_client_data`:
standardise the column names, raise (`Except.error`) when no `CustID`
column results, then fill nulls of the known numeric columns with 0
(`pd.to_numeric(..., errors="coerce").fillna(0)`). -/
def preprocessClientData (df : DF) : Except String DF :=
  let cols := df.cols.map renameCol
  if "CustID" ∉ cols then .error "Client data missing CustID column"
  else .ok ⟨cols, df.rows.map (fun r =>
    (cols.zip r).map (fun p => if p.1 ∈ numericCols then some (p.2.getD 0) else p.2))⟩

/-- Customer-level disagreement record collected by
`_compare_aging_bucket`. -/
structure CustDiff where
  custID : ℚ
  our_amount : ℚ
  client_amount : ℚ
  difference : ℚ
deriving DecidableEq, Repr

/-- Result dictionary of `_compare_aging_bucket` for one bucket. -/
structure BucketResult where
  bucket : String
  agrees : Bool
  our_total : ℚ
  client_total : ℚ
  difference : ℚ
  difference_pct : ℚ
  customer_differences : List CustDiff
  within_tolerance : Bool
  error : Option String
deriving DecidableEq, Repr

/-- The `(CustID, bucket)` two-column projection of a table. -/
def custVals (df : DF) (bucket : String) : List (Cell × Cell) :=
  df.rows.map (fun r => (getCell df.cols r "CustID", getCell df.cols r bucket))

/-- Outer join of the two projections on `CustID` followed by `fillna(0)`:
matched pairs carry both amounts, a row missing from one side contributes 0
for that side, and every null (including a null customer key) becomes 0.
pandas orders an outer join by sorted key; the claims are order-independent
and the embedding keeps left-rows-then-unmatched-right order. -/
def outerJoinCust (ourVals clientVals : List (Cell × Cell)) :
    List (ℚ × ℚ × ℚ) :=
  (ourVals.flatMap (fun l =>
    let ms := clientVals.filter (fun rr => rr.1 = l.1)
    if ms.isEmpty then [(l.1.getD 0, l.2.getD 0, 0)]
    else ms.map (fun rr => (l.1.getD 0, l.2.getD 0, rr.2.getD 0))))
  ++ ((clientVals.filter (fun rr => ¬ ourVals.any (fun l => decide (l.1 = rr.1)))).map
      (fun rr => (rr.1.getD 0, 0, rr.2.getD 0)))

/-- Shallow embedding of `AgingAnalyzer._compare_aging_bucket`.  The
bucket-missing error message elides the Python quotation marks around the
bucket name. -/
def compareAgingBucket (our_data client_data : DF) (bucket : String)
    (tolerance : ℚ) : BucketResult :=
  if bucket ∉ our_data.cols ∨ bucket ∉ client_data.cols then
    { bucket := bucket, agrees := false, our_total := 0, client_total := 0,
      difference := 0, difference_pct := 0, customer_differences := [],
      within_tolerance := false,
      error := some ("Bucket " ++ bucket ++ " not found in one of the datasets") }
  else
    let our_total := colSum our_data bucket
    let client_total := colSum client_data bucket
    let difference := our_total - client_total
    let difference_pct := if client_total ≠ 0 then |difference / client_total| else 0
    let within := decide (difference_pct ≤ tolerance)
    let joined := outerJoinCust (custVals our_data bucket) (custVals client_data bucket)
    let custDiffs := joined.filterMap (fun j =>
      if |j.2.1 - j.2.2| > tolerance * 1000 then
        some { custID := j.1, our_amount := j.2.1, client_amount := j.2.2,
               difference := j.2.1 - j.2.2 }
      else none)
    { bucket := bucket, agrees := custDiffs.isEmpty && within,
      our_total := our_total, client_total := client_total,
      difference := difference, difference_pct := difference_pct,
      customer_differences := custDiffs, within_tolerance := within,
      error := none }

/-- Overall metrics dictionary of `_calculate_comparison_metrics`. -/
structure CompMetrics where
  total_buckets_compared : ℕ
  agreed_buckets : ℕ
  buckets_within_tolerance : ℕ
  total_our_amount : ℚ
  total_client_amount : ℚ
  total_difference : ℚ
  overall_difference_pct : ℚ
deriving DecidableEq, Repr

/-- Shallow embedding of `AgingAnalyzer._calculate_comparison_metrics`. -/
def calculateComparisonMetrics (results : List (String × BucketResult)) :
    CompMetrics :=
  let td := (results.map (fun p => p.2.difference)).sum
  let tca := (results.map (fun p => p.2.client_total)).sum
  { total_buckets_compared := results.length,
    agreed_buckets := results.countP (fun p => p.2.agrees),
    buckets_within_tolerance := results.countP (fun p => p.2.within_tolerance),
    total_our_amount := (results.map (fun p => p.2.our_total)).sum,
    total_client_amount := tca,
    total_difference := td,
    overall_difference_pct := if tca ≠ 0 then |td / tca| else 0 }

/-- Substring test (`pat in s` of Python), via `splitOn`. -/
def containsSub (s pat : String) : Bool := (s.splitOn pat).length ≠ 1

/-- Shallow embedding of `AgingAnalyzer._generate_comparison_recommendations`. -/
def generateComparisonRecommendations (results : List (String × BucketResult))
    (m : CompMetrics) : List String :=
  let r1 :=
    if m.agreed_buckets = m.total_buckets_compared then
      ["✓ Aging analysis agrees with client data across all buckets"]
    else if m.buckets_within_tolerance = m.total_buckets_compared then
      ["Aging analysis within tolerance of client data"]
    else
      ["Significant differences found between our analysis and client data"]
  let r2 :=
    if m.total_difference ≠ 0 then
      ["Net difference: " ++ ratStr m.total_difference ++ " ("
        ++ ratStr m.overall_difference_pct ++ " of client total)"]
    else []
  let r3 := results.filterMap (fun p =>
    if ¬ p.2.customer_differences.isEmpty then
      some ("Customer-level differences in " ++ p.1 ++ " bucket: "
        ++ toString p.2.customer_differences.length ++ " customers")
    else none)
  let recs := r1 ++ r2 ++ r3
  if recs.isEmpty ∨ recs.all
      (fun s => containsSub s "agrees" || containsSub s "within tolerance") then
    recs ++ ["No significant issues identified - client aging appears reasonable"]
  else
    recs ++ ["Investigate differences with client, particularly customer-level variances",
             "Verify invoice dates, payment status, and aging calculations"]

/-- Comparison dictionary returned by `compare_with_client_aging`.  The
`detailed_comparison` entry (a presentation-only side table produced by
`_create_detailed_comparison`) is not inspected by any consumer in the
repository and is not modelled. -/
structure Comparison where
  agrees : Bool
  differences : List (String × BucketResult)
  recommendations : List String
  metrics : Option CompMetrics
deriving DecidableEq, Repr

/-- Column names of the pivoted aging summary (`our_summary.columns`). -/
def summaryColNames : List String :=
  ["CustID", "0-30", "31-60", "61-90", "90+", "Total"]

/-- The pivoted summary as a table, for the code paths that treat it as a
DataFrame. -/
def summaryToDF (s : List SummaryRow) : DF :=
  ⟨summaryColNames, s.map (fun r =>
    [some r.custID, some r.b030, some r.b3160, some r.b6190, some r.b90,
     some r.total])⟩

/-- Shallow embedding of `AgingAnalyzer.compare_with_client_aging`, with the
client table passed as a pre-loaded DataFrame (`client_dataframe`); the
file-loading branch is I/O and not modelled.  Buckets absent from the
summary columns are skipped (their interim recommendation is overwritten by
`_generate_comparison_recommendations`, as in the source, which assigns the
final recommendations list wholesale).  The no-data recommendation elides
the apostrophe of the Python text. -/
def compareWithClientAging (report : Option AgingReport)
    (client_dataframe : Option DF) (aging_buckets : Option (List String))
    (tolerance : ℚ) : Comparison :=
  match report with
  | none =>
    { agrees := false, differences := [],
      recommendations := ["Perform aging analysis first"], metrics := none }
  | some rpt =>
    let buckets := aging_buckets.getD ["90+"]
    match client_dataframe with
    | none =>
      { agrees := false, differences := [],
        recommendations := ["No client aging data provided (file or DataFrame)",
          "Obtain the client detailed aging report for comparison"],
        metrics := none }
    | some cdf =>
      match preprocessClientData cdf with
      | .error msg =>
        { agrees := false, differences := [],
          recommendations := ["Error during comparison: " ++ msg],
          metrics := none }
      | .ok client_data =>
        let ourDF := summaryToDF rpt.summary
        let results := (buckets.filter (fun b => b ∈ summaryColNames)).map
          (fun b => (b, compareAgingBucket ourDF client_data b tolerance))
        let m := calculateComparisonMetrics results
        { agrees := decide (0 < results.length)
            && decide (results.countP (fun p => p.2.agrees) = results.length),
          differences := results,
          recommendations := generateComparisonRecommendations results m,
          metrics := some m }

/-! ## Allowance assessment (`AgingAnalyzer.assess_allowance_reasonableness`) -/

/-- Value of a summary column in one summary row (every name of
`summaryColNames` resolves; the catch-all arm is `Total`). -/
def summaryField (r : SummaryRow) (c : String) : ℚ :=
  if c = "CustID" then r.custID
  else if c = "0-30" then r.b030
  else if c = "31-60" then r.b3160
  else if c = "61-90" then r.b6190
  else if c = "90+" then r.b90
  else r.total

/-- Column sum over the aging summary (`summary[bucket].sum()`). -/
def summaryColSum (s : List SummaryRow) (c : String) : ℚ :=
  (s.map (fun r => summaryField r c)).sum

/-- Assessment dictionary returned by `assess_allowance_reasonableness`.
`bucket_breakdown` entries are `(bucket, amount, percentage, allowance)`. -/
structure Assessment where
  client_allowance : ℚ
  recommended_allowance : ℚ
  difference : ℚ
  assessment : String
  factors : List String
  bucket_breakdown : List (String × ℚ × ℚ × ℚ)
  comparison_impact : Option (String × String)
deriving DecidableEq, Repr

/-- Shallow embedding of `AgingAnalyzer.assess_allowance_reasonableness`.
`none` arguments select the source defaults (buckets `["61-90","90+"]`,
percentages 25% / 75%).  The comparison-based adjustment runs first and the
allowance-variance check runs after it and can overwrite its result, exactly
as in the source. -/
def assessAllowanceReasonableness (report : Option AgingReport)
    (client_allowance : ℚ) (aging_buckets : Option (List String))
    (allowance_percentages : Option (List (String × ℚ)))
    (comparison_data : Option Comparison) : Assessment :=
  match report with
  | none =>
    { client_allowance := client_allowance, recommended_allowance := 0,
      difference := 0, assessment := "reasonable",
      factors := ["Aging analysis not performed"], bucket_breakdown := [],
      comparison_impact := none }
  | some rpt =>
    let buckets := aging_buckets.getD ["61-90", "90+"]
    let pcts := allowance_percentages.getD [("61-90", 1/4), ("90+", 3/4)]
    let breakdown := (buckets.filter (fun b => b ∈ summaryColNames)).map (fun b =>
      (b, summaryColSum rpt.summary b, lookupD pcts b 0,
        summaryColSum rpt.summary b * lookupD pcts b 0))
    let total_recommended := (breakdown.map (fun q => q.2.2.2)).sum
    let difference := client_allowance - total_recommended
    let compState : String × Option (String × String) × List String :=
      match comparison_data with
      | some cd =>
        match cd.metrics with
        | some m =>
          let a1 :=
            if ¬ cd.agrees then
              if m.overall_difference_pct > 5/100 then
                ("questionable",
                  some ("high", "Significant differences with client aging data"))
              else if m.overall_difference_pct > 2/100 then
                ("requires_review",
                  some ("medium", "Material differences with client aging data"))
              else (("reasonable" : String), (none : Option (String × String)))
            else ("reasonable", none)
          let f1 := ["Comparison agreement: " ++ if cd.agrees then "True" else "False"]
          let f2 :=
            if m.overall_difference_pct > 0 then
              ["Comparison difference: " ++ ratStr m.overall_difference_pct
                ++ " of client amounts"]
            else []
          (a1.1, a1.2, f1 ++ f2)
        | none => ("reasonable", none, [])
      | none => ("reasonable", none, [])
    let final :=
      if |difference| > client_allowance * (1/10) then "questionable"
      else if |difference| > client_allowance * (5/100) then "requires_review"
      else compState.1
    let factorsB := breakdown.map (fun q =>
      q.1 ++ ": " ++ ratStr q.2.1 ++ " x " ++ ratStr q.2.2.1 ++ " = "
        ++ ratStr q.2.2.2)
    let factorsT := ["Total recommended allowance: " ++ ratStr total_recommended,
                     "Client allowance: " ++ ratStr client_allowance]
    let factorsD :=
      if difference ≠ 0 then
        ["Difference: " ++ ratStr difference ++ " ("
          ++ ratStr |difference / client_allowance| ++ " of client allowance)"]
      else []
    let factorsC :=
      if final = "questionable" then
        ["Consider obtaining additional evidence for allowance reasonableness"]
      else if final = "requires_review" then
        ["Consider discussing allowance methodology with client"]
      else []
    { client_allowance := client_allowance,
      recommended_allowance := total_recommended,
      difference := difference, assessment := final,
      factors := compState.2.2 ++ factorsB ++ factorsT ++ factorsD ++ factorsC,
      bucket_breakdown := breakdown, comparison_impact := compState.2.1 }

/-- Comparison-trigger classification as the spec words it (written for
comparison with the implementation): "questionable" when the supplied
comparison data disagrees with aggregate difference above 5%, at least
"requires_review" above 2%, otherwise "reasonable". -/
def comparisonClassification (cd : Option Comparison) : String :=
  match cd with
  | some c =>
    match c.metrics with
    | some m =>
      if ¬ c.agrees ∧ m.overall_difference_pct > 5/100 then "questionable"
      else if ¬ c.agrees ∧ m.overall_difference_pct > 2/100 then "requires_review"
      else "reasonable"
    | none => "reasonable"
  | none => "reasonable"

/-! ## Three-way match (`three_way_match.py`)

The module-level script is embedded over typed rows carrying the columns it
actually reads.  Presentation columns (customer and territory names,
payment-status strings, CSV exports) do not affect the match flags and are
not modelled. -/

/-- Invoice row of the three-way match (after dropping the invoice-side
`CustID`, which the script discards before the order merge). -/
structure Inv3 where
  invoiceID : ℚ
  salesOrderID : Option ℚ
  invoiceYear : ℤ
deriving DecidableEq, Repr

/-- Sales-order projection used by the script
(`sales_orders[["SalesOrderID", "SubTotal", "ShipID", "TerritoryID", "CustID"]]`). -/
structure Ord3 where
  salesOrderID : ℚ
  subTotal : Option ℚ
  shipID : Option ℚ
  territoryID : Option ℚ
  custID : Option ℚ
deriving DecidableEq, Repr

/-- Shipment projection used by the script
(`shipments[["ShipID", "ShipDate"]]`). -/
structure Ship3 where
  shipID : ℚ
  shipDate : Option ℚ
deriving DecidableEq, Repr

/-- Row of the `three_way` table with the derived match flags. -/
structure TWRow where
  invoiceID : ℚ
  salesOrderID : Option ℚ
  subTotal : Option ℚ
  shipID : Option ℚ
  territoryID : Option ℚ
  custID : Option ℚ
  shipDate : Option ℚ
  hasOrder : Bool
  hasShipment : Bool
  completeMatch : Bool
deriving DecidableEq, Repr

/-- Table `revenue_2017`: the 2017 invoices left-joined with the sales orders on
`SalesOrderID`. -/
def revenue2017Rows (invoices : List Inv3) (orders : List Ord3) :
    List (Inv3 × Option Ord3) :=
  (invoices.filter (fun i => i.invoiceYear = 2017)).flatMap (fun i =>
    let ms := orders.filter (fun o => i.salesOrderID = some o.salesOrderID)
    if ms.isEmpty then [(i, none)] else ms.map (fun o => (i, some o)))

/-- Row of the `three_way` table for one invoice, its matched order row (if
any) and the ship date carried by the shipment merge: missing order data is
null, `Has_Order = SubTotal.notna()`, `Has_Shipment = ShipDate.notna()`,
`Complete_Match = Has_Order & Has_Shipment`. -/
def mkTW (i : Inv3) (om : Option Ord3) (sd : Option ℚ) : TWRow :=
  { invoiceID := i.invoiceID, salesOrderID := i.salesOrderID,
    subTotal := om.bind (fun o => o.subTotal),
    shipID := om.bind (fun o => o.shipID),
    territoryID := om.bind (fun o => o.territoryID),
    custID := om.bind (fun o => o.custID),
    shipDate := sd,
    hasOrder := (om.bind (fun o => o.subTotal)).isSome,
    hasShipment := sd.isSome,
    completeMatch := (om.bind (fun o => o.subTotal)).isSome && sd.isSome }

/-- Table `three_way`: the revenue rows left-joined with the shipments on
`ShipID`. -/
def threeWayRows (invoices : List Inv3) (orders : List Ord3)
    (shipments : List Ship3) : List TWRow :=
  (revenue2017Rows invoices orders).flatMap (fun p =>
    let ms := shipments.filter
      (fun s => p.2.bind (fun o => o.shipID) = some s.shipID)
    if ms.isEmpty then [mkTW p.1 p.2 none]
    else ms.map (fun s => mkTW p.1 p.2 s.shipDate))

/-- Table `no_ship`: the invoiced-but-not-shipped exception set
(`three_way[Has_Order & ~Has_Shipment]`). -/
def noShipRows (invoices : List Inv3) (orders : List Ord3)
    (shipments : List Ship3) : List TWRow :=
  (threeWayRows invoices orders shipments).filter
    (fun r => r.hasOrder && !r.hasShipment)

/-! ## Supporting lemmas -/

/-- Elements of `dedupFirst l` are exactly the elements of `l`. -/
theorem mem_dedupFirst {α : Type} [DecidableEq α] (a : α) (l : List α) :
    a ∈ dedupFirst l ↔ a ∈ l := by
  induction l with
  | nil => simp [dedupFirst]
  | cons b l ih =>
    simp only [dedupFirst, List.mem_cons, List.mem_filter, ih]
    constructor
    · rintro (rfl | ⟨h, -⟩)
      · exact Or.inl rfl
      · exact Or.inr h
    · rintro (rfl | h)
      · exact Or.inl rfl
      · by_cases hb : a = b
        · exact Or.inl hb
        · exact Or.inr ⟨h, by simp [hb]⟩

/-- Characterisation of the four aging-bucket labels: the `pd.cut` intervals
are right-closed at 30, 60 and 90. -/
theorem agingBucket_spec (d : ℤ) :
    (agingBucket d = "0-30" ↔ d ≤ 30) ∧
    (agingBucket d = "31-60" ↔ 30 < d ∧ d ≤ 60) ∧
    (agingBucket d = "61-90" ↔ 60 < d ∧ d ≤ 90) ∧
    (agingBucket d = "90+" ↔ 90 < d) := by
  unfold agingBucket
  split_ifs with h1 h2 h3 <;> refine ⟨?_, ?_, ?_, ?_⟩ <;> simp <;> omega

/-- Every row surviving `_calculate_invoice_aging` lies in the retained
days-past-due range and carries the bucket of its days-past-due value. -/
theorem calculateInvoiceAging_mem {unpaid : List Invoice}
    {orders : List OrderProj} {asOfDate : ℤ} {r : DetailRow}
    (h : r ∈ calculateInvoiceAging unpaid orders asOfDate) :
    r.bucket = agingBucket r.daysPastDue ∧
    -30 ≤ r.daysPastDue ∧ r.daysPastDue ≤ 365 := by
  unfold calculateInvoiceAging at h
  simp only [List.mem_map, List.mem_filter, decide_eq_true_eq] at h
  obtain ⟨q, ⟨-, hrange⟩, rfl⟩ := h
  exact ⟨rfl, hrange.1, hrange.2⟩

/-- Structure of a report produced by `perform_aging_analysis`: the stored
detailed, summary and over-90 tables come from the corresponding pipeline
stages. -/
theorem performAgingAnalysis_eq {invoices : List Invoice}
    {orders : List OrderProj} {asOfDate : ℤ} {rpt : AgingReport}
    (h : performAgingAnalysis invoices orders asOfDate = some rpt) :
    rpt.detailed
      = calculateInvoiceAging (invoices.filter (fun i => ¬ i.isPaid)) orders asOfDate ∧
    rpt.summary = createAgingReport rpt.detailed ∧
    rpt.over_90_days = over90Days rpt.detailed := by
  unfold performAgingAnalysis at h
  split at h
  · exact absurd h (by simp)
  · split at h
    · exact absurd h (by simp)
    · split at h
      · exact absurd h (by simp)
      · rw [Option.some_inj] at h
        subst h
        exact ⟨rfl, rfl, rfl⟩

/-! ## Claim theorems -/

/-- C1.  For every invoice row retained by the aging data-quality filter,
bucket assignment is total and deterministic: retained rows have
`DaysPastDue` in `[-30, 365]` (rows outside it are discarded before
bucketing) and carry exactly the bucket of the total function
`agingBucket`, which maps `d ≤ 30` (including every negative retained
value) to `"0-30"`, `31..60` to `"31-60"`, `61..90` to `"61-90"`, `d > 90`
to `"90+"`; the boundary values 30, 60, 90 go to the lower bucket. -/
theorem c1_aging_bucket_assignment :
    (∀ (unpaid : List Invoice) (orders : List OrderProj) (asOfDate : ℤ)
      (r : DetailRow), r ∈ calculateInvoiceAging unpaid orders asOfDate →
        (-30 ≤ r.daysPastDue ∧ r.daysPastDue ≤ 365) ∧
        r.bucket = agingBucket r.daysPastDue) ∧
    (∀ d : ℤ,
      (agingBucket d = "0-30" ↔ d ≤ 30) ∧
      (agingBucket d = "31-60" ↔ 30 < d ∧ d ≤ 60) ∧
      (agingBucket d = "61-90" ↔ 60 < d ∧ d ≤ 90) ∧
      (agingBucket d = "90+" ↔ 90 < d)) := by
  constructor
  · intro unpaid orders asOfDate r h
    obtain ⟨hb, h1, h2⟩ := calculateInvoiceAging_mem h
    exact ⟨⟨h1, h2⟩, hb⟩
  · exact agingBucket_spec

/-- Witness for C1 at a concrete input: one unpaid invoice dated day 0,
as-of day 45, no matching order. -/
theorem c1_witness :
    ((-30 : ℤ) ≤ (⟨1, 7, none, 0, 45, "31-60"⟩ : DetailRow).daysPastDue ∧
      (⟨1, 7, none, 0, 45, "31-60"⟩ : DetailRow).daysPastDue ≤ 365) ∧
    (⟨1, 7, none, 0, 45, "31-60"⟩ : DetailRow).bucket
      = agingBucket (⟨1, 7, none, 0, 45, "31-60"⟩ : DetailRow).daysPastDue :=
  c1_aging_bucket_assignment.1 [⟨1, 7, some 0, false⟩] [] 45
    ⟨1, 7, none, 0, 45, "31-60"⟩ (by decide)

/-- C10.  With no stored aging report, `compare_with_client_aging` returns a
non-agreeing comparison recommending to perform the aging analysis first,
and `assess_allowance_reasonableness` returns a zero-recommendation
"reasonable" assessment with the "Aging analysis not performed" factor;
both embeddings are total functions (neither path raises). -/
theorem c10_no_report_defaults (cdf : Option DF) (bo : Option (List String))
    (tol : ℚ) (ca : ℚ) (ab : Option (List String))
    (ap : Option (List (String × ℚ))) (cd : Option Comparison) :
    (compareWithClientAging none cdf bo tol).agrees = false ∧
    (compareWithClientAging none cdf bo tol).differences = [] ∧
    (compareWithClientAging none cdf bo tol).recommendations
      = ["Perform aging analysis first"] ∧
    (assessAllowanceReasonableness none ca ab ap cd).recommended_allowance = 0 ∧
    (assessAllowanceReasonableness none ca ab ap cd).assessment = "reasonable" ∧
    (assessAllowanceReasonableness none ca ab ap cd).factors
      = ["Aging analysis not performed"] :=
  ⟨rfl, rfl, rfl, rfl, rfl, rfl⟩

/-- Counterexample to C3 as stated: when one left row matches two right rows
the merged table has two rows, `left_matched` is computed from the merged
table, and `merge_rate = 2 ∉ [0, 1]`. -/
theorem c3_merge_rate_counterexample :
    (validateAndMerge ⟨["k", "x"], [[some 1, some 10]]⟩
      ⟨["k", "y"], [[some 1, some 1], [some 1, some 2]]⟩ "k" (4/5)).2.merge_rate
      = 2 ∧
    ¬ (validateAndMerge ⟨["k", "x"], [[some 1, some 10]]⟩
      ⟨["k", "y"], [[some 1, some 1], [some 1, some 2]]⟩ "k" (4/5)).2.merge_rate
      ≤ 1 := by
  have h : ("k" ++ "_left") = "k_left" := rfl
  simp [validateAndMerge, leftJoin, leftJoinRows, mergedCols,
    rightNonKeyCells, countNotna, getCell, List.findIdx?, h]

/-- Counterexample to C5 as stated: with comparison data disagreeing by 6%
(comparison trigger: "questionable") and an allowance variance of 7% of the
client allowance (variance trigger: "requires_review"), the final
classification is "requires_review" — the allowance-variance check runs
after the comparison check and overwrites it, so the more severe
"questionable" is lost.  Concretely: summary 90+ total 1240, default
percentages give recommended 930 against a client allowance of 1000. -/
theorem c5_assessment_counterexample :
    (assessAllowanceReasonableness
        (some ⟨[], [⟨1, 0, 0, 0, 1240, 1240⟩], [], 0, 0, 1⟩) 1000 none none
        (some ⟨false, [], [], some ⟨1, 0, 0, 0, 0, 0, 3/50⟩⟩)).assessment
      = "requires_review" ∧
    (3/50 : ℚ) > 5/100 ∧
    (assessAllowanceReasonableness
        (some ⟨[], [⟨1, 0, 0, 0, 1240, 1240⟩], [], 0, 0, 1⟩) 1000 none none
        (some ⟨false, [], [], some ⟨1, 0, 0, 0, 0, 0, 3/50⟩⟩)).difference = 70 ∧
    |(70 : ℚ)| > 1000 * (5/100) ∧
    ("requires_review" : String) ≠ "questionable" := by
  refine ⟨?_, by norm_num, ?_, by norm_num [abs], by decide⟩ <;>
    simp [assessAllowanceReasonableness, summaryColSum, summaryField,
      summaryColNames, lookupD, List.find?] <;> norm_num [abs]

/-- Counterexample to C6 as stated: with a negative client bucket total,
the code computes `difference_pct = |difference / client_total| = 1`,
whereas the claimed formula `|difference| / client_total` yields `-1`; the
code then reports `within_tolerance = false` while the claimed formula
(`-1 ≤ 0.01`) would report `true`. -/
theorem c6_bucket_comparison_counterexample :
    (compareAgingBucket ⟨["CustID", "90+"], [[some 1, some 0]]⟩
      ⟨["CustID", "90+"], [[some 1, some (-100)]]⟩ "90+" (1/100)).difference_pct
      = 1 ∧
    |(compareAgingBucket ⟨["CustID", "90+"], [[some 1, some 0]]⟩
      ⟨["CustID", "90+"], [[some 1, some (-100)]]⟩ "90+" (1/100)).difference|
      / (compareAgingBucket ⟨["CustID", "90+"], [[some 1, some 0]]⟩
      ⟨["CustID", "90+"], [[some 1, some (-100)]]⟩ "90+" (1/100)).client_total
      = -1 ∧
    (compareAgingBucket ⟨["CustID", "90+"], [[some 1, some 0]]⟩
      ⟨["CustID", "90+"], [[some 1, some (-100)]]⟩ "90+" (1/100)).within_tolerance
      = false ∧
    ((-1 : ℚ) ≤ 1/100) := by
  refine ⟨?_, ?_, ?_, by norm_num⟩ <;>
    simp [compareAgingBucket, colSum, getCell, custVals, outerJoinCust,
      List.findIdx?]
  norm_num [abs]

/-- Counterexample to C7 as stated: an invoice whose `SalesOrderID` matches
a sales-order row whose `SubTotal` is null gets `Has_Order = false`, because
the script derives `Has_Order` from `SubTotal.notna()` rather than from the
join outcome. -/
theorem c7_three_way_counterexample :
    (threeWayRows [⟨1, some 5, 2017⟩] [⟨5, none, none, none, some 1⟩] []).map
        (fun r => r.hasOrder) = [false] ∧
    (threeWayRows [⟨1, some 5, 2017⟩] [⟨5, none, none, none, some 1⟩] []).map
        (fun r => r.salesOrderID) = [some 5] ∧
    (∃ o ∈ ([⟨5, none, none, none, some 1⟩] : List Ord3),
      (some 5 : Option ℚ) = some o.salesOrderID) := by decide

/-- Each days-past-due value falls in one of the four bucket labels. -/
theorem agingBucket_cases (d : ℤ) :
    agingBucket d = "0-30" ∨ agingBucket d = "31-60" ∨ agingBucket d = "61-90"
      ∨ agingBucket d = "90+" := by
  unfold agingBucket
  split_ifs <;> simp

/-- Shape of a summary row: it is the bucket-sum row of its customer. -/
theorem createAgingReport_mem {det : List DetailRow} {s : SummaryRow}
    (h : s ∈ createAgingReport det) :
    ∃ c, c ∈ det.map (fun r => r.custID) ∧
      s = ⟨c, bucketSum det c "0-30", bucketSum det c "31-60",
           bucketSum det c "61-90", bucketSum det c "90+",
           bucketSum det c "0-30" + bucketSum det c "31-60"
             + bucketSum det c "61-90" + bucketSum det c "90+"⟩ := by
  unfold createAgingReport at h
  rw [List.mem_map] at h
  obtain ⟨c, hc, rfl⟩ := h
  exact ⟨c, (mem_dedupFirst _ _).mp hc, rfl⟩

/-- Finding a key in an association list built by pairing each key with a
computed value. -/
theorem find?_pair_eq {β : Type} (f : ℚ → β) {keys : List ℚ} {c : ℚ}
    (h : c ∈ keys) :
    (keys.map (fun k => (k, f k))).find? (fun p => p.1 = c) = some (c, f c) := by
  induction keys with
  | nil => cases h
  | cons k ks ih =>
    rcases List.mem_cons.mp h with rfl | h2
    · simp [List.find?_cons]
    · by_cases hk : k = c
      · subst hk
        simp [List.find?_cons]
      · simp [List.find?_cons, hk, ih h2]

/-- The over-90 subtotal looked up for any customer equals the sum of the
over-90 detail rows of that customer (0 when the customer has none). -/
theorem over90Days_lookup (det : List DetailRow) (c : ℚ) :
    (over90Lookup (over90Days det) c).getD 0
      = (((det.filter (fun r => 90 < r.daysPastDue)).filter
          (fun r => r.custID = c)).map (fun r => r.totalDue.getD 0)).sum := by
  unfold over90Days over90Lookup
  by_cases hc : c ∈ dedupFirst
      ((det.filter (fun r => 90 < r.daysPastDue)).map (fun r => r.custID))
  · rw [find?_pair_eq
      (fun k => (((det.filter (fun r => 90 < r.daysPastDue)).filter
        (fun r => r.custID = k)).map (fun r => r.totalDue.getD 0)).sum) hc]
    rfl
  · have hnone : (((dedupFirst
        ((det.filter (fun r => 90 < r.daysPastDue)).map (fun r => r.custID))).map
          (fun k => (k, (((det.filter (fun r => 90 < r.daysPastDue)).filter
            (fun r => r.custID = k)).map (fun r => r.totalDue.getD 0)).sum))).find?
              (fun p => p.1 = c)) = none := by
      rw [List.find?_eq_none]
      intro x hx
      rw [List.mem_map] at hx
      obtain ⟨k, hk, rfl⟩ := hx
      simp only [decide_eq_true_eq]
      intro hkc
      exact hc (hkc ▸ hk)
    rw [hnone]
    have hempty : (det.filter (fun r => 90 < r.daysPastDue)).filter
        (fun r => r.custID = c) = [] := by
      rw [List.filter_eq_nil_iff]
      intro r hr
      simp only [decide_eq_true_eq]
      intro hrc
      refine hc ((mem_dedupFirst _ _).mpr ?_)
      rw [List.mem_map]
      exact ⟨r, hr, hrc⟩
    rw [hempty]
    rfl

/-- C8.  For every customer in the aging summary, the `over_90_days`
per-customer subtotal (0 when absent) equals the `"90+"` column of that
customer, and the over-90 selection (`DaysPastDue > 90`) selects exactly the
detailed rows whose assigned bucket is `"90+"` (90 itself falls in
`"61-90"`). -/
theorem c8_over90_consistency (invoices : List Invoice)
    (orders : List OrderProj) (asOfDate : ℤ) (rpt : AgingReport)
    (h : performAgingAnalysis invoices orders asOfDate = some rpt) :
    (∀ s ∈ rpt.summary, (over90Lookup rpt.over_90_days s.custID).getD 0 = s.b90) ∧
    rpt.detailed.filter (fun r => 90 < r.daysPastDue)
      = rpt.detailed.filter (fun r => r.bucket = "90+") := by
  obtain ⟨hdet, hsum, hover⟩ := performAgingAnalysis_eq h
  have hbucket : ∀ r ∈ rpt.detailed, r.bucket = agingBucket r.daysPastDue := by
    intro r hr
    rw [hdet] at hr
    exact (calculateInvoiceAging_mem hr).1
  have hdec : ∀ r ∈ rpt.detailed,
      decide (90 < r.daysPastDue) = decide (r.bucket = "90+") := by
    intro r hr
    rw [decide_eq_decide, hbucket r hr]
    exact ((agingBucket_spec r.daysPastDue).2.2.2).symm
  refine ⟨?_, List.filter_congr hdec⟩
  intro s hs
  rw [hsum] at hs
  obtain ⟨c, -, rfl⟩ := createAgingReport_mem hs
  show (over90Lookup rpt.over_90_days c).getD 0 = bucketSum rpt.detailed c "90+"
  rw [hover, over90Days_lookup]
  unfold bucketSum
  congr 1
  rw [List.filter_filter]
  refine congrArg _ (List.filter_congr ?_)
  intro r hr
  rw [Bool.decide_and, hdec r hr]

/-- Witness for C8 at a concrete input: one unpaid invoice, one matching
order of 100, as-of day 100 (bucket `"90+"`). -/
theorem c8_witness :
    (over90Lookup (⟨[⟨1, 7, some 100, 0, 100, "90+"⟩],
        [⟨7, 0, 0, 0, 100, 100⟩], [(7, 100)], 100, 1, 1⟩ : AgingReport).over_90_days
      (⟨7, 0, 0, 0, 100, 100⟩ : SummaryRow).custID).getD 0
      = (⟨7, 0, 0, 0, 100, 100⟩ : SummaryRow).b90 ∧
    (⟨[⟨1, 7, some 100, 0, 100, "90+"⟩], [⟨7, 0, 0, 0, 100, 100⟩], [(7, 100)],
        100, 1, 1⟩ : AgingReport).detailed.filter (fun r => 90 < r.daysPastDue)
      = (⟨[⟨1, 7, some 100, 0, 100, "90+"⟩], [⟨7, 0, 0, 0, 100, 100⟩], [(7, 100)],
        100, 1, 1⟩ : AgingReport).detailed.filter (fun r => r.bucket = "90+") := by
  have h := c8_over90_consistency [⟨1, 7, some 0, false⟩]
    [⟨some 1, some 100, none⟩] 100
    ⟨[⟨1, 7, some 100, 0, 100, "90+"⟩], [⟨7, 0, 0, 0, 100, 100⟩], [(7, 100)],
      100, 1, 1⟩ (by
        simp [performAgingAnalysis, calculateInvoiceAging, invoiceOrderMerge,
          dedupFirst, createAgingReport, bucketSum, over90Days, agingBucket])
  exact ⟨h.1 ⟨7, 0, 0, 0, 100, 100⟩ (by decide), h.2⟩

/-- C9.  A client table whose standardised columns contain no resolvable
`CustID` makes `_preprocess_client_data` raise, and
`compare_with_client_aging` catches the error and returns an error result
(no differences, no metrics, `agrees = false`, an error recommendation)
rather than a normal comparison outcome. -/
theorem c9_missing_custid_fatal (cdf : DF)
    (h : "CustID" ∉ cdf.cols.map renameCol) :
    preprocessClientData cdf
      = Except.error "Client data missing CustID column" ∧
    ∀ (report : AgingReport) (bo : Option (List String)) (tol : ℚ),
      (compareWithClientAging (some report) (some cdf) bo tol).agrees = false ∧
      (compareWithClientAging (some report) (some cdf) bo tol).differences = [] ∧
      (compareWithClientAging (some report) (some cdf) bo tol).metrics = none ∧
      (compareWithClientAging (some report) (some cdf) bo tol).recommendations
        = ["Error during comparison: Client data missing CustID column"] := by
  have hp : preprocessClientData cdf
      = Except.error "Client data missing CustID column" := by
    unfold preprocessClientData
    rw [if_pos h]
  refine ⟨hp, ?_⟩
  intro report bo tol
  unfold compareWithClientAging
  simp [hp]

/-- Witness for C9 at a concrete input: a client table whose only column
`"foo"` resolves to no customer identifier. -/
theorem c9_witness :
    preprocessClientData ⟨["foo"], []⟩
      = Except.error "Client data missing CustID column" ∧
    (compareWithClientAging (some ⟨[], [], [], 0, 0, 0⟩) (some ⟨["foo"], []⟩)
      none (1/100)).recommendations
      = ["Error during comparison: Client data missing CustID column"] := by
  have h := c9_missing_custid_fatal ⟨["foo"], []⟩ (by decide)
  exact ⟨h.1, (h.2 ⟨[], [], [], 0, 0, 0⟩ none (1/100)).2.2.2⟩

/-- Splitting the per-customer `TotalDue` sum across the four buckets: when
every row carries one of the four labels, the four bucket sums of a customer
add up to the plain sum over the rows of that customer. -/
theorem bucketSums_eq_filter_sum (det : List DetailRow) (c : ℚ) :
    (∀ r ∈ det, r.bucket = "0-30" ∨ r.bucket = "31-60"
      ∨ r.bucket = "61-90" ∨ r.bucket = "90+") →
    bucketSum det c "0-30" + bucketSum det c "31-60" + bucketSum det c "61-90"
      + bucketSum det c "90+"
      = ((det.filter (fun r => r.custID = c)).map
          (fun r => r.totalDue.getD 0)).sum := by
  induction det with
  | nil => intro _; simp [bucketSum]
  | cons r l ih =>
    intro h
    have hr := h r (List.mem_cons_self r l)
    have ihl := ih (fun x hx => h x (List.mem_cons_of_mem r hx))
    by_cases hc : r.custID = c
    · rcases hr with h1 | h1 | h1 | h1 <;>
        (simp only [bucketSum, List.filter_cons] at ihl ⊢
         simp [hc, h1] at ihl ⊢
         linarith [ihl])
    · simp only [bucketSum, List.filter_cons] at ihl ⊢
      simp [hc] at ihl ⊢
      linarith [ihl]

/-- C2.  For every customer in the summary produced by
`perform_aging_analysis`, the `Total` column equals the sum of the four
bucket columns, which in turn equals (exactly, hence within the 0.01
tolerance) the sum of `TotalDue` over the detailed rows of that customer;
and `validate_analysis_results` sets `is_valid` to false whenever the
summary and detailed grand totals differ by more than 0.01 (the check runs
when both tables are nonempty, which holds for every produced report). -/
theorem c2_summary_detail_consistency :
    (∀ (invoices : List Invoice) (orders : List OrderProj) (asOfDate : ℤ)
        (rpt : AgingReport),
      performAgingAnalysis invoices orders asOfDate = some rpt →
      ∀ s ∈ rpt.summary,
        s.total = s.b030 + s.b3160 + s.b6190 + s.b90 ∧
        s.b030 + s.b3160 + s.b6190 + s.b90
          = ((rpt.detailed.filter (fun r => r.custID = s.custID)).map
              (fun r => r.totalDue.getD 0)).sum ∧
        |s.total - ((rpt.detailed.filter (fun r => r.custID = s.custID)).map
              (fun r => r.totalDue.getD 0)).sum| ≤ 1/100) ∧
    (∀ rpt : AgingReport, rpt.detailed ≠ [] → rpt.summary ≠ [] →
      |sumSummaryTotal rpt.summary - sumTotalDue rpt.detailed| > 1/100 →
      (validateAnalysisResults (some rpt)).is_valid = false) := by
  constructor
  · intro invoices orders asOfDate rpt h s hs
    obtain ⟨hdet, hsum, -⟩ := performAgingAnalysis_eq h
    rw [hsum] at hs
    obtain ⟨c, -, rfl⟩ := createAgingReport_mem hs
    have hlabels : ∀ r ∈ rpt.detailed, r.bucket = "0-30" ∨ r.bucket = "31-60"
        ∨ r.bucket = "61-90" ∨ r.bucket = "90+" := by
      intro r hr
      rw [hdet] at hr
      rw [(calculateInvoiceAging_mem hr).1]
      exact agingBucket_cases _
    have hpart := bucketSums_eq_filter_sum rpt.detailed c hlabels
    refine ⟨rfl, ?_, ?_⟩ <;> dsimp only
    · exact hpart
    · rw [hpart, sub_self, abs_zero]
      norm_num
  · intro rpt hd hs hgt
    have h1 : (¬ rpt.detailed.isEmpty ∧ ¬ rpt.summary.isEmpty) := by
      simp [List.isEmpty_iff, hd, hs]
    simp only [validateAnalysisResults]
    rw [if_pos h1, if_pos hgt]

/-- Witness for C2: the per-customer consistency at a concrete one-invoice
run, and detection of a deliberately inconsistent report (summary total 500
against detailed total 100). -/
theorem c2_witness :
    (⟨7, 0, 0, 0, 100, 100⟩ : SummaryRow).total
      = (⟨7, 0, 0, 0, 100, 100⟩ : SummaryRow).b030
        + (⟨7, 0, 0, 0, 100, 100⟩ : SummaryRow).b3160
        + (⟨7, 0, 0, 0, 100, 100⟩ : SummaryRow).b6190
        + (⟨7, 0, 0, 0, 100, 100⟩ : SummaryRow).b90 ∧
    (validateAnalysisResults (some ⟨[⟨1, 7, some 100, 0, 100, "90+"⟩],
      [⟨7, 0, 0, 0, 100, 500⟩], [], 0, 0, 0⟩)).is_valid = false := by
  constructor
  · exact (c2_summary_detail_consistency.1 [⟨1, 7, some 0, false⟩]
      [⟨some 1, some 100, none⟩] 100
      ⟨[⟨1, 7, some 100, 0, 100, "90+"⟩], [⟨7, 0, 0, 0, 100, 100⟩], [(7, 100)],
        100, 1, 1⟩ (by
          simp [performAgingAnalysis, calculateInvoiceAging, invoiceOrderMerge,
            dedupFirst, createAgingReport, bucketSum, over90Days, agingBucket])
      ⟨7, 0, 0, 0, 100, 100⟩ (by decide)).1
  · exact c2_summary_detail_consistency.2
      ⟨[⟨1, 7, some 100, 0, 100, "90+"⟩], [⟨7, 0, 0, 0, 100, 500⟩], [], 0, 0, 0⟩
      (by decide) (by decide)
      (by norm_num [sumSummaryTotal, sumTotalDue, abs])

/-- C5 (amended).  `assess_allowance_reasonableness` computes the
recommended allowance as the sum over the configured buckets (those present
among the summary columns) of bucket total times bucket percentage, and
`difference = clientAllowance - recommended`; the comparison trigger
classifies "questionable" above 5% aggregate disagreement and
"requires_review" above 2% (when the comparison disagrees), but the
allowance-variance check runs last and overwrites it: the final
classification is "questionable" when |difference| exceeds 10% of the
client allowance, else "requires_review" when it exceeds 5%, and only
otherwise the comparison-trigger classification — not the more severe of
the two. -/
theorem c5_assessment_amended (rpt : AgingReport) (ca : ℚ)
    (bo : Option (List String)) (po : Option (List (String × ℚ)))
    (cd : Option Comparison) :
    (assessAllowanceReasonableness (some rpt) ca bo po cd).recommended_allowance
      = (((bo.getD ["61-90", "90+"]).filter (fun b => b ∈ summaryColNames)).map
          (fun b => summaryColSum rpt.summary b
            * lookupD (po.getD [("61-90", 1/4), ("90+", 3/4)]) b 0)).sum ∧
    (assessAllowanceReasonableness (some rpt) ca bo po cd).difference
      = ca - (assessAllowanceReasonableness (some rpt) ca bo po cd).recommended_allowance ∧
    (assessAllowanceReasonableness (some rpt) ca bo po cd).assessment
      = (if |(assessAllowanceReasonableness (some rpt) ca bo po cd).difference|
            > ca * (1/10) then "questionable"
         else if |(assessAllowanceReasonableness (some rpt) ca bo po cd).difference|
            > ca * (5/100) then "requires_review"
         else comparisonClassification cd) := by
  refine ⟨?_, ?_, ?_⟩
  · simp only [assessAllowanceReasonableness, List.map_map]
    rfl
  · rfl
  · rcases cd with _ | c
    · simp [assessAllowanceReasonableness, comparisonClassification]
    · rcases hm : c.metrics with _ | m
      · simp [assessAllowanceReasonableness, comparisonClassification, hm]
      · by_cases ha : c.agrees <;>
          by_cases h5 : m.overall_difference_pct > 5/100 <;>
          by_cases h2 : m.overall_difference_pct > 2/100 <;>
          simp [assessAllowanceReasonableness, comparisonClassification, hm,
            ha, h5, h2]

/-- An index search for a name that is not among the columns finds
nothing. -/
theorem findIdx?_eq_none_of_not_mem {c : String} :
    ∀ {l : List String}, c ∉ l →
      ∀ i, List.findIdx? (fun x => x = c) l i = none := by
  intro l
  induction l with
  | nil => intro _ i; rfl
  | cons a l ih =>
    intro h i
    have ha : ¬ (a = c) := fun hac => h (hac ▸ List.mem_cons_self a l)
    simp only [List.findIdx?, decide_eq_true_eq, ha, if_false]
    exact ih (fun hc => h (List.mem_cons_of_mem a hc)) (i + 1)

/-- Folding fresh null columns onto a table appends the column names and
pads every row with nulls. -/
theorem assignNullCols_fold (names : List String) :
    ∀ (df : DF), names.Nodup → (∀ c ∈ names, c ∉ df.cols) →
      names.foldl assignNullCol df
        = ⟨df.cols ++ names,
           df.rows.map (fun r => r ++ List.replicate names.length none)⟩ := by
  induction names with
  | nil =>
    intro df _ _
    simp
  | cons c names ih =>
    intro df hnd hfresh
    have hc : c ∉ df.cols := hfresh c (List.mem_cons_self c names)
    have hstep : assignNullCol df c
        = ⟨df.cols ++ [c], df.rows.map (fun r => r ++ [none])⟩ := by
      unfold assignNullCol
      rw [findIdx?_eq_none_of_not_mem hc]
    have hfresh2 : ∀ x ∈ names, x ∉ df.cols ++ [c] := by
      intro x hx
      have hxf := hfresh x (List.mem_cons_of_mem c hx)
      have hxc : x ≠ c := fun hxeq => (List.nodup_cons.mp hnd).1 (hxeq ▸ hx)
      simp [hxf, hxc]
    rw [List.foldl_cons, hstep, ih _ (List.nodup_cons.mp hnd).2 hfresh2]
    simp [List.append_assoc, List.map_map, Function.comp, List.replicate_succ]

/-- C4.  Every short-circuit of `_validate_and_merge` (empty input table or
join key missing on either side) returns instead of raising: the left table
with the right non-key columns appended as null-filled columns, and
diagnostics with `success = false`, `merge_rate = 0` and a machine-readable
error, which is `"Empty DataFrame"` in the empty-input case.  (Freshness of
the suffixed names keeps `assign` from overwriting an existing left
column.) -/
theorem c4_short_circuit (left right : DF) (key : String) (t : ℚ)
    (hshort : left.rows = [] ∨ right.rows = [] ∨ key ∉ left.cols
      ∨ key ∉ right.cols)
    (hnd : (nullColNames right key).Nodup)
    (hfresh : ∀ c ∈ nullColNames right key, c ∉ left.cols) :
    (validateAndMerge left right key t).1
      = ⟨left.cols ++ nullColNames right key,
         left.rows.map (fun r =>
           r ++ List.replicate (nullColNames right key).length none)⟩ ∧
    (validateAndMerge left right key t).2.success = false ∧
    (validateAndMerge left right key t).2.merge_rate = 0 ∧
    (validateAndMerge left right key t).2.error.isSome = true ∧
    ((left.rows = [] ∨ right.rows = []) →
      (validateAndMerge left right key t).2.error = some "Empty DataFrame") := by
  have hdf := assignNullCols_fold (nullColNames right key) left hnd hfresh
  by_cases h1 : left.rows.length = 0 ∨ right.rows.length = 0
  · unfold validateAndMerge
    rw [if_pos h1]
    exact ⟨hdf, rfl, rfl, rfl, fun _ => rfl⟩
  · have h1x : ¬ (left.rows = [] ∨ right.rows = []) := by
      simpa [List.length_eq_zero] using h1
    have hkey : key ∉ left.cols ∨ key ∉ right.cols := by
      rcases hshort with h | h | h | h
      · exact absurd (Or.inl h) h1x
      · exact absurd (Or.inr h) h1x
      · exact Or.inl h
      · exact Or.inr h
    unfold validateAndMerge
    rw [if_neg h1]
    rcases hkey with hk | hk
    · rw [if_pos hk]
      exact ⟨hdf, rfl, rfl, rfl, fun hc => absurd hc h1x⟩
    · by_cases hk2 : key ∉ left.cols
      · rw [if_pos hk2]
        exact ⟨hdf, rfl, rfl, rfl, fun hc => absurd hc h1x⟩
      · rw [if_neg hk2, if_pos hk]
        exact ⟨hdf, rfl, rfl, rfl, fun hc => absurd hc h1x⟩

/-- Witness for C4 at a concrete input: empty left table, one-row right
table with key `"k"` and one data column `"b"`. -/
theorem c4_witness :
    (validateAndMerge ⟨["a"], []⟩ ⟨["k", "b"], [[some 1, some 2]]⟩ "k" 1).1
      = ⟨(⟨["a"], []⟩ : DF).cols
          ++ nullColNames ⟨["k", "b"], [[some 1, some 2]]⟩ "k",
         (⟨["a"], []⟩ : DF).rows.map (fun r => r ++ List.replicate
           (nullColNames ⟨["k", "b"], [[some 1, some 2]]⟩ "k").length none)⟩ ∧
    (validateAndMerge ⟨["a"], []⟩ ⟨["k", "b"], [[some 1, some 2]]⟩ "k" 1).2.success
      = false ∧
    (validateAndMerge ⟨["a"], []⟩ ⟨["k", "b"], [[some 1, some 2]]⟩ "k" 1).2.merge_rate
      = 0 ∧
    (validateAndMerge ⟨["a"], []⟩ ⟨["k", "b"], [[some 1, some 2]]⟩ "k" 1).2.error
      = some "Empty DataFrame" := by
  have h := c4_short_circuit ⟨["a"], []⟩ ⟨["k", "b"], [[some 1, some 2]]⟩ "k" 1
    (Or.inl rfl) (by decide) (by decide)
  exact ⟨h.1, h.2.1, h.2.2.1, h.2.2.2.2 (Or.inl rfl)⟩

/-- Under at-most-one-match uniqueness the left join emits at most one row
per left row. -/
theorem leftJoinRows_length_le (left right : DF) (key : String)
    (h : ∀ lr ∈ left.rows, (right.rows.filter (fun rr =>
      getCell right.cols rr key = getCell left.cols lr key)).length ≤ 1) :
    (leftJoinRows left right key).length ≤ left.rows.length := by
  unfold leftJoinRows
  rw [List.length_flatMap]
  calc (List.map _ left.rows).sum
      ≤ (List.map _ left.rows).length • 1 := by
        refine List.sum_le_card_nsmul _ 1 ?_
        intro x hx
        rw [List.mem_map] at hx
        obtain ⟨lr, hlr, rfl⟩ := hx
        simp only [Function.comp]
        by_cases hms : (right.rows.filter (fun rr =>
            getCell right.cols rr key = getCell left.cols lr key)).isEmpty
        · simp [hms]
        · rw [if_neg hms, List.length_map]
          exact h lr hlr
    _ = left.rows.length := by simp

/-- C3 (amended).  In the non-short-circuit branch of `_validate_and_merge`
the diagnostics satisfy `merge_rate ≥ 0` and `success` iff
`merge_rate ≥ merge_threshold`; `merge_rate ≤ 1` is guaranteed only when
every left row matches at most one right row — with duplicate right-key
matches the merged table grows and `merge_rate` exceeds 1
(see the counterexample). -/
theorem c3_merge_rate_amended (left right : DF) (key : String) (t : ℚ)
    (hL : left.rows ≠ []) (hR : right.rows ≠ [])
    (hkL : key ∈ left.cols) (hkR : key ∈ right.cols) :
    0 ≤ (validateAndMerge left right key t).2.merge_rate ∧
    ((validateAndMerge left right key t).2.success = true ↔
      t ≤ (validateAndMerge left right key t).2.merge_rate) ∧
    ((∀ lr ∈ left.rows, (right.rows.filter (fun rr =>
        getCell right.cols rr key = getCell left.cols lr key)).length ≤ 1) →
      (validateAndMerge left right key t).2.merge_rate ≤ 1) := by
  have hL0 : ¬ (left.rows.length = 0 ∨ right.rows.length = 0) := by
    simp [List.length_eq_zero, hL, hR]
  unfold validateAndMerge
  rw [if_neg hL0, if_neg (by simp [hkL]), if_neg (by simp [hkR])]
  dsimp only
  refine ⟨?_, ?_, ?_⟩
  · apply div_nonneg
    · exact_mod_cast Nat.zero_le _
    · exact_mod_cast Nat.zero_le _
  · simp [decide_eq_true_eq, ge_iff_le]
  · intro huniq
    have hlen : (leftJoin left right key).rows.length ≤ left.rows.length :=
      leftJoinRows_length_le left right key huniq
    have hpos : 0 < (left.rows.length : ℚ) := by
      have hne : left.rows.length ≠ 0 := by
        simpa [List.length_eq_zero] using hL
      exact_mod_cast Nat.pos_of_ne_zero hne
    rw [div_le_one hpos]
    by_cases hmem : (key ++ "_left") ∈ (leftJoin left right key).cols
    · rw [if_pos hmem]
      have hcount : countNotna (leftJoin left right key) (key ++ "_left")
          ≤ (leftJoin left right key).rows.length := List.countP_le_length _
      exact_mod_cast le_trans hcount hlen
    · rw [if_neg hmem]
      exact_mod_cast hlen

/-- Witness for C3 (amended) at a concrete input: a one-row left table and a
one-row right table matching uniquely on `"k"`. -/
theorem c3_witness :
    0 ≤ (validateAndMerge ⟨["k", "x"], [[some 1, some 10]]⟩
        ⟨["k", "y"], [[some 1, some 7]]⟩ "k" (4/5)).2.merge_rate ∧
    ((validateAndMerge ⟨["k", "x"], [[some 1, some 10]]⟩
        ⟨["k", "y"], [[some 1, some 7]]⟩ "k" (4/5)).2.success = true ↔
      4/5 ≤ (validateAndMerge ⟨["k", "x"], [[some 1, some 10]]⟩
        ⟨["k", "y"], [[some 1, some 7]]⟩ "k" (4/5)).2.merge_rate) ∧
    (validateAndMerge ⟨["k", "x"], [[some 1, some 10]]⟩
        ⟨["k", "y"], [[some 1, some 7]]⟩ "k" (4/5)).2.merge_rate ≤ 1 := by
  have h := c3_merge_rate_amended ⟨["k", "x"], [[some 1, some 10]]⟩
    ⟨["k", "y"], [[some 1, some 7]]⟩ "k" (4/5) (by decide) (by decide)
    (by decide) (by decide)
  exact ⟨h.1, h.2.1, h.2.2 (by decide)⟩

/-- C6 (amended).  For every compared bucket present in both tables:
`difference = our_total - client_total`; `difference_pct` is
`|difference| / |client_total|` (0 when the client total is 0) — the
implementation computes `abs(difference / client_total)`, so for a negative
client total it differs from the literal formula `|difference|/client_total`
(see the counterexample); `within_tolerance` iff `difference_pct ≤ tol`;
the flagged customer-level disagreements are exactly the outer-joined pairs
(missing side counted 0) whose absolute difference exceeds `tol * 1000`;
the bucket agrees iff no customer-level disagreement and within tolerance;
and the aggregate comparison agrees only if every compared bucket agrees. -/
theorem c6_bucket_comparison_amended :
    (∀ (our_data client_data : DF) (bucket : String) (tol : ℚ),
      bucket ∈ our_data.cols → bucket ∈ client_data.cols →
      (compareAgingBucket our_data client_data bucket tol).our_total
        = colSum our_data bucket ∧
      (compareAgingBucket our_data client_data bucket tol).client_total
        = colSum client_data bucket ∧
      (compareAgingBucket our_data client_data bucket tol).difference
        = (compareAgingBucket our_data client_data bucket tol).our_total
          - (compareAgingBucket our_data client_data bucket tol).client_total ∧
      (compareAgingBucket our_data client_data bucket tol).difference_pct
        = (if (compareAgingBucket our_data client_data bucket tol).client_total = 0
           then 0
           else |(compareAgingBucket our_data client_data bucket tol).difference|
             / |(compareAgingBucket our_data client_data bucket tol).client_total|) ∧
      ((compareAgingBucket our_data client_data bucket tol).within_tolerance = true
        ↔ (compareAgingBucket our_data client_data bucket tol).difference_pct ≤ tol) ∧
      (∀ cd, cd ∈ (compareAgingBucket our_data client_data bucket tol).customer_differences
        ↔ ∃ j ∈ outerJoinCust (custVals our_data bucket) (custVals client_data bucket),
            |j.2.1 - j.2.2| > tol * 1000 ∧
            cd = ⟨j.1, j.2.1, j.2.2, j.2.1 - j.2.2⟩) ∧
      ((compareAgingBucket our_data client_data bucket tol).agrees = true ↔
        (compareAgingBucket our_data client_data bucket tol).customer_differences = []
          ∧ (compareAgingBucket our_data client_data bucket tol).within_tolerance = true)) ∧
    (∀ (report : AgingReport) (cdf : Option DF) (bo : Option (List String)) (tol : ℚ),
      (compareWithClientAging (some report) cdf bo tol).agrees = true →
      ∀ p ∈ (compareWithClientAging (some report) cdf bo tol).differences,
        p.2.agrees = true) := by
  constructor
  · intro od cdta bucket tol hbo hbc
    have hcond : ¬ (bucket ∉ od.cols ∨ bucket ∉ cdta.cols) := by
      simp [hbo, hbc]
    unfold compareAgingBucket
    rw [if_neg hcond]
    dsimp only
    refine ⟨rfl, rfl, rfl, ?_, ?_, ?_, ?_⟩
    · by_cases hct : colSum cdta bucket = 0
      · rw [if_neg (not_not_intro hct), if_pos hct]
      · rw [if_pos hct, if_neg hct]
        exact abs_div _ _
    · simp [decide_eq_true_eq]
    · intro cd
      rw [List.mem_filterMap]
      constructor
      · rintro ⟨j, hj, hcd⟩
        by_cases habs : |j.2.1 - j.2.2| > tol * 1000
        · rw [if_pos habs] at hcd
          exact ⟨j, hj, habs, (Option.some_inj.mp hcd).symm⟩
        · rw [if_neg habs] at hcd
          cases hcd
      · rintro ⟨j, hj, habs, rfl⟩
        exact ⟨j, hj, by rw [if_pos habs]⟩
    · rw [Bool.and_eq_true, List.isEmpty_iff]
  · intro report cdf bo tol hag p hp
    unfold compareWithClientAging at hag hp
    rcases cdf with _ | c
    · simp at hag
    · rcases hpre : preprocessClientData c with msg | cleaned
      · simp only [hpre] at hag
        simp at hag
      · simp only [hpre] at hag hp
        rw [Bool.and_eq_true, decide_eq_true_eq, decide_eq_true_eq] at hag
        exact List.countP_eq_length.mp hag.2 p hp

/-- Witness for C6 at concrete inputs: a one-row bucket comparison for the
per-bucket clauses, and an agreeing empty-table comparison for the
aggregate clause. -/
theorem c6_witness :
    (compareAgingBucket ⟨["CustID", "90+"], [[some 1, some 5]]⟩
        ⟨["CustID", "90+"], [[some 1, some 5]]⟩ "90+" (1/100)).our_total
      = colSum ⟨["CustID", "90+"], [[some 1, some 5]]⟩ "90+" ∧
    (("90+", (⟨"90+", true, 0, 0, 0, 0, [], true, none⟩ : BucketResult))
      : String × BucketResult).2.agrees = true := by
  constructor
  · exact (c6_bucket_comparison_amended.1 ⟨["CustID", "90+"], [[some 1, some 5]]⟩
      ⟨["CustID", "90+"], [[some 1, some 5]]⟩ "90+" (1/100)
      (by decide) (by decide)).1
  · have hpre : preprocessClientData ⟨["customer_id", "90+"], []⟩
        = Except.ok ⟨["CustID", "90+"], []⟩ := rfl
    refine c6_bucket_comparison_amended.2 ⟨[], [], [], 0, 0, 0⟩
      (some ⟨["customer_id", "90+"], []⟩) none (1/100) ?_
      ("90+", ⟨"90+", true, 0, 0, 0, 0, [], true, none⟩) ?_
    · simp [compareWithClientAging, hpre, summaryToDF, summaryColNames,
        compareAgingBucket, colSum, getCell, custVals, outerJoinCust,
        calculateComparisonMetrics, List.findIdx?]
    · simp [compareWithClientAging, hpre, summaryToDF, summaryColNames,
        compareAgingBucket, colSum, getCell, custVals, outerJoinCust,
        calculateComparisonMetrics, List.findIdx?]

/-- C7 (amended).  When every order row carries a non-null `SubTotal` and
every shipment row a non-null `ShipDate` (the proxies the script tests with
`notna()`), the flags coincide with join outcomes for every 2017 invoice
row: `Has_Order` iff the `SalesOrderID` of the row matched an order,
`Has_Shipment` iff the carried `ShipID` matched a shipment,
`Complete_Match = Has_Order AND Has_Shipment`, and the
invoiced-not-shipped exception set consists exactly of the rows with
`Has_Order` and not `Has_Shipment`.  Without the non-null hypotheses the
first equivalence fails (see the counterexample). -/
theorem c7_three_way_amended (invoices : List Inv3) (orders : List Ord3)
    (shipments : List Ship3)
    (hord : ∀ o ∈ orders, o.subTotal.isSome)
    (hship : ∀ s ∈ shipments, s.shipDate.isSome) :
    ∀ r ∈ threeWayRows invoices orders shipments,
      (r.hasOrder = true ↔ ∃ o ∈ orders, r.salesOrderID = some o.salesOrderID) ∧
      (r.hasShipment = true ↔ ∃ s ∈ shipments, r.shipID = some s.shipID) ∧
      r.completeMatch = (r.hasOrder && r.hasShipment) ∧
      (r ∈ noShipRows invoices orders shipments ↔
        r.hasOrder = true ∧ r.hasShipment = false) := by
  intro r hr
  have hns : r ∈ noShipRows invoices orders shipments ↔
      (r.hasOrder = true ∧ r.hasShipment = false) := by
    unfold noShipRows
    rw [List.mem_filter]
    constructor
    · rintro ⟨-, hb⟩
      rw [Bool.and_eq_true, Bool.not_eq_true'] at hb
      exact hb
    · intro hb
      refine ⟨hr, ?_⟩
      rw [Bool.and_eq_true, Bool.not_eq_true']
      exact hb
  have hmem := hr
  unfold threeWayRows at hmem
  rw [List.mem_flatMap] at hmem
  obtain ⟨p, hp, hrp⟩ := hmem
  unfold revenue2017Rows at hp
  rw [List.mem_flatMap] at hp
  obtain ⟨i, hi, hpi⟩ := hp
  by_cases homs : (orders.filter
      (fun o => i.salesOrderID = some o.salesOrderID)).isEmpty
  · -- no order matched: p = (i, none)
    rw [if_pos homs, List.mem_singleton] at hpi
    subst hpi
    have hships : (shipments.filter (fun s =>
        (((i, (none : Option Ord3)).2.bind (fun o => o.shipID))
          = some s.shipID))).isEmpty := by
      simp
    rw [if_pos hships, List.mem_singleton] at hrp
    subst hrp
    have hnoord : ∀ o ∈ orders, ¬ (i.salesOrderID = some o.salesOrderID) := by
      rw [List.isEmpty_iff, List.filter_eq_nil_iff] at homs
      simpa using homs
    refine ⟨?_, ?_, rfl, hns⟩
    · simp [mkTW]
      intro o ho h
      exact hnoord o ho h
    · simp [mkTW]
  · -- an order matched: p = (i, some o)
    rw [if_neg homs, List.mem_map] at hpi
    obtain ⟨o, ho, hpi⟩ := hpi
    subst hpi
    rw [List.mem_filter] at ho
    obtain ⟨hoin, hosid⟩ := ho
    rw [decide_eq_true_eq] at hosid
    have hasord : ∀ sd, (mkTW i (some o) sd).hasOrder = true := by
      intro sd
      have := hord o hoin
      simp [mkTW, this]
    have hordiff : (∃ o2 ∈ orders,
        i.salesOrderID = some o2.salesOrderID) := ⟨o, hoin, hosid⟩
    by_cases hsms : (shipments.filter (fun s =>
        (((i, some o).2.bind (fun oo => oo.shipID)) = some s.shipID))).isEmpty
    · rw [if_pos hsms, List.mem_singleton] at hrp
      subst hrp
      have hnoship : ∀ s ∈ shipments, ¬ (o.shipID = some s.shipID) := by
        rw [List.isEmpty_iff, List.filter_eq_nil_iff] at hsms
        simpa using hsms
      refine ⟨?_, ?_, rfl, hns⟩
      · simp only [hasord]
        simp [mkTW, hosid]
        exact ⟨o, hoin, rfl⟩
      · simp [mkTW]
        intro s hs h
        exact hnoship s hs h
    · rw [if_neg hsms, List.mem_map] at hrp
      obtain ⟨s, hs, hrp⟩ := hrp
      subst hrp
      rw [List.mem_filter] at hs
      obtain ⟨hsin, hssid⟩ := hs
      rw [decide_eq_true_eq] at hssid
      refine ⟨?_, ?_, rfl, hns⟩
      · simp only [hasord]
        simp [mkTW, hosid]
        exact ⟨o, hoin, rfl⟩
      · have := hship s hsin
        simp [mkTW, this]
        exact ⟨s, hsin, by simpa [mkTW] using hssid⟩

/-- Witness for C7 (amended) at a concrete input: one 2017 invoice fully
matched through order 5 and shipment 9. -/
theorem c7_witness :
    (⟨1, some 5, some 50, some 9, none, some 1, some 42, true, true, true⟩
        : TWRow).hasOrder = true ↔
      ∃ o ∈ ([⟨5, some 50, some 9, none, some 1⟩] : List Ord3),
        (⟨1, some 5, some 50, some 9, none, some 1, some 42, true, true, true⟩
          : TWRow).salesOrderID = some o.salesOrderID :=
  (c7_three_way_amended [⟨1, some 5, 2017⟩] [⟨5, some 50, some 9, none, some 1⟩]
    [⟨9, some 42⟩] (by decide) (by decide)
    ⟨1, some 5, some 50, some 9, none, some 1, some 42, true, true, true⟩
    (by decide)).1

end UMD
